import Mathlib

/-!
Verification of `telegram/payment/precheckoutquery.py`: the `PreCheckoutQuery`
record, its deserialization factory `de_json`, the delegating `answer` method,
and id-based equality. Python dictionaries are embedded as association lists
over loosely-typed JSON-like values; Python call failures (`KeyError`,
`TypeError`, `AttributeError`) are embedded as an explicit error type.
-/

/-- Wire key "id". -/
def keyId : String := "id"

/-- Wire key "from". -/
def keyFrom : String := "from"

/-- Constructor keyword "from_user" (the renamed "from" field). -/
def keyFromUser : String := "from_user"

/-- Wire key "currency". -/
def keyCurrency : String := "currency"

/-- Wire key "total_amount". -/
def keyTotalAmount : String := "total_amount"

/-- Wire key "invoice_payload". -/
def keyInvoicePayload : String := "invoice_payload"

/-- Wire key "shipping_option_id". -/
def keyShippingOptionId : String := "shipping_option_id"

/-- Wire key "order_info". -/
def keyOrderInfo : String := "order_info"

/-- Constructor keyword "bot" (the injected client handle parameter). -/
def keyBot : String := "bot"

/-- Constructor keyword "self" (the implicit first parameter of `__init__`,
already bound by the `cls(...)` call itself). -/
def keySelf : String := "self"

/-- Message of the TypeError raised when a required positional argument is missing. -/
def errMissingArg : String := "missing required argument"

/-- Loosely-typed values stored in the wire map and in the record's fields.
`none` is Python's `None`; `obj` is an opaque nested JSON object (this module
never inspects the internals of nested objects, it only hands them to the
external factories); `user`/`orderInfo` are the outputs of the external
`User.de_json` / `OrderInfo.de_json` factories wrapping the value they decoded. -/
inductive Val where
  | none
  | str (s : String)
  | int (n : Int)
  | bool (b : Bool)
  | obj (tag : Nat)
  | user (raw : Val)
  | orderInfo (raw : Val)
  deriving DecidableEq

/-- A Python dict with string keys, embedded as an association list
(keys unique in any dict produced by JSON decoding; all operations below
use first-match semantics, which coincides with dict semantics). -/
abbrev PyDict := List (String × Val)

/-- Embeds `d[k]` lookup / `k in d`: the value at the first matching key. -/
def PyDict.get : PyDict → String → Option Val
  | [], _ => Option.none
  | (k, v) :: d, key => if k = key then some v else PyDict.get d key

/-- Embeds `d.get(k)`: lookup returning Python `None` when the key is absent. -/
def PyDict.getD (d : PyDict) (k : String) : Val :=
  (PyDict.get d k).getD Val.none

/-- Embeds `d[k] = v`: replace the value at the first matching key, else append. -/
def PyDict.set : PyDict → String → Val → PyDict
  | [], key, v => [(key, v)]
  | (k, w) :: d, key, v =>
      if k = key then (key, v) :: d else (k, w) :: PyDict.set d key v

/-- Embeds `d.pop(k)` without default: the popped value and the remaining dict,
or nothing (Python: `KeyError`) when the key is absent. -/
def PyDict.pop : PyDict → String → Option (Val × PyDict)
  | [], _ => Option.none
  | (k, w) :: d, key =>
      if k = key then some (w, d)
      else
        match PyDict.pop d key with
        | Option.none => Option.none
        | some (v, d2) => some (v, (k, w) :: d2)

/-- Python exceptions that the embedded code can raise. -/
inductive PyErr where
  | keyError (k : String)
  | typeError (msg : String)
  | attributeError
  deriving DecidableEq

/-- One invocation of the client handle's `answer_pre_checkout_query` operation:
the query identifier positional argument plus the forwarded `*args` and `**kwargs`. -/
structure BotCall where
  pre_checkout_query_id : Val
  args : List Val
  kwargs : PyDict
  deriving DecidableEq

/-- Modelled from the spec: the platform client handle (`telegram.Bot`) is an
external collaborator, out of scope of this file; the spec reduces it to "a
minimal capability interface exposing only the one answer pre-checkout query
operation", which returns a boolean success indicator. -/
structure BotHandle where
  answer_pre_checkout_query : BotCall → Bool

/-- Modelled from the spec: the external `User` record factory (`User.de_json`),
out of scope of this file. It produces nothing for an absent input and otherwise
the `User` record decoded from the input; the record is represented opaquely as
a wrapper around the decoded source value. The claims below compare fields
against this factory's output, so its internals are irrelevant to them. -/
def User.de_json (data : Val) (bot : Option BotHandle) : Val :=
  match data, bot with
  | Val.none, _ => Val.none
  | v, _ => Val.user v

/-- Modelled from the spec: the external `OrderInfo` record factory
(`OrderInfo.de_json`), out of scope of this file, analogous to the `User` factory. -/
def OrderInfo.de_json (data : Val) (bot : Option BotHandle) : Val :=
  match data, bot with
  | Val.none, _ => Val.none
  | v, _ => Val.orderInfo v

/-- The `PreCheckoutQuery` record (source lines 69-91): the seven data fields,
the optional client handle, and the `_id_attrs` equality key tuple set by
`__init__` (source line 91). Fields hold loosely-typed values because the
Python constructor stores its arguments without any type or value check. -/
structure PreCheckoutQuery where
  id : Val
  from_user : Val
  currency : Val
  total_amount : Val
  invoice_payload : Val
  shipping_option_id : Val
  order_info : Val
  bot : Option BotHandle
  idAttrs : List Val

/-- Embeds `PreCheckoutQuery.__init__` (source lines 69-91) invoked as
`cls(bot=bot, **kwargs)`: the call's argument binding already carries `self`
(bound by the instantiation itself) and `bot` (passed explicitly), so a `self`
or `bot` key in the unpacked dict raises a TypeError for a duplicate argument;
the five parameters without defaults must be supplied or a TypeError is raised;
`shipping_option_id` and `order_info` default to `None`; every other keyword is
swallowed by `**_kwargs` and dropped; fields are stored unvalidated and
`_id_attrs` is set to the one-element tuple holding `id`. -/
def PreCheckoutQuery.init (bot : Option BotHandle) (kwargs : PyDict) :
    Except PyErr PreCheckoutQuery :=
  match PyDict.get kwargs keySelf with
  | some _ => Except.error (PyErr.typeError keySelf)
  | Option.none =>
   match PyDict.get kwargs keyBot with
   | some _ => Except.error (PyErr.typeError keyBot)
   | Option.none =>
    match PyDict.get kwargs keyId, PyDict.get kwargs keyFromUser,
          PyDict.get kwargs keyCurrency, PyDict.get kwargs keyTotalAmount,
          PyDict.get kwargs keyInvoicePayload with
    | some i, some fu, some c, some ta, some ip =>
        Except.ok
          ⟨i, fu, c, ta, ip,
           PyDict.getD kwargs keyShippingOptionId,
           PyDict.getD kwargs keyOrderInfo,
           bot, [i]⟩
    | _, _, _, _, _ => Except.error (PyErr.typeError errMissingArg)

/-- Modelled from the spec: `TelegramObject.parse_data` is not in the source
tree. Per the spec's factory steps 1-2 it produces nothing for an absent map and
otherwise a shallow, mutation-safe copy of the map; in this embedding maps are
immutable values, so the copy is the map itself, and the frame property is
stated through `PreCheckoutQuery.de_json_call` below. -/
def PreCheckoutQuery.parse_data : Option PyDict → Option PyDict
  | Option.none => Option.none
  | some d => some d

/-- Embeds source lines 100-101 applied to the copied dict after `pop('from')`:
`data['from_user'] = User.de_json(<popped value>, bot)` followed by
`data['order_info'] = OrderInfo.de_json(data.get('order_info'), bot)`. -/
def prepKwargs (bot : Option BotHandle) (fromVal : Val) (d : PyDict) : PyDict :=
  PyDict.set (PyDict.set d keyFromUser (User.de_json fromVal bot)) keyOrderInfo
    (OrderInfo.de_json
      (PyDict.getD (PyDict.set d keyFromUser (User.de_json fromVal bot)) keyOrderInfo)
      bot)

/-- Embeds `PreCheckoutQuery.de_json` (source lines 93-103): parse the data,
return nothing for an absent or empty map, pop `"from"` (KeyError when absent),
rewrite the dict through the external factories, and construct the record with
`cls(bot=bot, **data)`. -/
def PreCheckoutQuery.de_json (data : Option PyDict) (bot : Option BotHandle) :
    Except PyErr (Option PreCheckoutQuery) :=
  match PreCheckoutQuery.parse_data data with
  | Option.none => Except.ok Option.none
  | some d =>
    if d.isEmpty then Except.ok Option.none
    else
      match PyDict.pop d keyFrom with
      | Option.none => Except.error (PyErr.keyError keyFrom)
      | some fd =>
          (PreCheckoutQuery.init bot (prepKwargs bot fd.1 fd.2)).map some

/-- The factory call with the caller's map threaded through explicitly: the
second component is the caller's map after the call. Every dict edit inside
`de_json` happens on the copy produced by `parse_data`, so the caller's map
comes back unchanged; this wrapper makes that frame property statable. -/
def PreCheckoutQuery.de_json_call (data : Option PyDict) (bot : Option BotHandle) :
    Except PyErr (Option PreCheckoutQuery) × Option PyDict :=
  (PreCheckoutQuery.de_json data bot, data)

/-- Embeds `PreCheckoutQuery.answer` (source lines 105-122):
`return self.bot.answer_pre_checkout_query(self.id, *args, **kwargs)`.
The first component is the trace of calls made to the client handle during the
invocation; the second is the outcome. When `self.bot` is `None` the attribute
access raises an AttributeError before any call is made, so the trace is empty. -/
def PreCheckoutQuery.answer (q : PreCheckoutQuery) (args : List Val)
    (kwargs : PyDict) : List BotCall × Except PyErr Bool :=
  match q.bot with
  | Option.none => ([], Except.error PyErr.attributeError)
  | some b =>
      ([⟨q.id, args, kwargs⟩],
       Except.ok (b.answer_pre_checkout_query ⟨q.id, args, kwargs⟩))

/-- Modelled from the spec: `TelegramObject.__eq__` is not in the source tree;
per the spec, equality between two instances is defined solely by equal `id`
values, realised through the `_id_attrs` tuple that `__init__` sets to `(self.id,)`
(source line 91). -/
def PreCheckoutQuery.eq (a b : PreCheckoutQuery) : Bool :=
  a.idAttrs == b.idAttrs

/-- The five wire keys whose absence makes `de_json` fail. -/
def hasRequiredKeys (d : PyDict) : Bool :=
  (PyDict.get d keyId).isSome && (PyDict.get d keyFrom).isSome &&
  (PyDict.get d keyCurrency).isSome && (PyDict.get d keyTotalAmount).isSome &&
  (PyDict.get d keyInvoicePayload).isSome

/-- The keyword names the call `cls(bot=bot, **kwargs)` reacts to: the
parameters of `__init__` plus the implicitly bound `self` and the explicitly
passed `bot`, whose duplication raises; everything else lands in `**_kwargs`. -/
def recognizedKeys : List String :=
  [keyId, keyFromUser, keyCurrency, keyTotalAmount, keyInvoicePayload,
   keyShippingOptionId, keyOrderInfo, keyBot, keySelf]

/-- The value is a non-empty string. -/
def isNonEmptyStr : Val → Bool
  | Val.str s => decide (s ≠ "")
  | _ => false

/-- The value is a non-negative integer. -/
def isNonNegInt : Val → Bool
  | Val.int n => decide (0 ≤ n)
  | _ => false

/-- The computation succeeded. -/
def exceptIsOk {α : Type} : Except PyErr α → Bool
  | Except.ok _ => true
  | Except.error _ => false

/-- The computation succeeded with an actual value (not Python `None`). -/
def exceptIsOkSome {α : Type} : Except PyErr (Option α) → Bool
  | Except.ok (some _) => true
  | _ => false

/-- The computation raised. -/
def exceptIsError {α : Type} : Except PyErr α → Bool
  | Except.error _ => true
  | _ => false

/-- Literal "q1". -/
def strQ : String := "q1"

/-- Literal "USD". -/
def strUSD : String := "USD"

/-- Literal "EUR". -/
def strEUR : String := "EUR"

/-- Literal "pay". -/
def strPay : String := "pay"

/-- Literal "ship7". -/
def strShip : String := "ship7"

/-- Literal "junk". -/
def strJunk : String := "junk"

/-- Literal "" (the empty string). -/
def strEmpty : String := ""

/-- A stub client handle whose acknowledgement operation always reports success. -/
def bot0 : BotHandle :=
  ⟨fun _ => true⟩

/-- A concrete record with the stub client handle attached. -/
def qAns : PreCheckoutQuery :=
  ⟨Val.str strQ, Val.none, Val.str strUSD, Val.int 145, Val.str strPay,
   Val.none, Val.none, some bot0, [Val.str strQ]⟩

/-- A concrete record whose client handle is unset. -/
def qNoBot : PreCheckoutQuery :=
  ⟨Val.str strQ, Val.none, Val.str strUSD, Val.int 145, Val.str strPay,
   Val.none, Val.none, Option.none, [Val.str strQ]⟩

/-- A concrete record sharing id and handle with `qInfoB` but no other field. -/
def qInfoA : PreCheckoutQuery :=
  ⟨Val.str strQ, Val.user (Val.obj 1), Val.str strUSD, Val.int 145, Val.str strPay,
   Val.none, Val.none, some bot0, [Val.str strQ]⟩

/-- A concrete record sharing id and handle with `qInfoA` but no other field. -/
def qInfoB : PreCheckoutQuery :=
  ⟨Val.str strQ, Val.none, Val.str strEUR, Val.int 9, Val.none,
   Val.none, Val.none, some bot0, [Val.str strQ]⟩

/-- A concrete wire map holding exactly the five required keys. -/
def dWire : PyDict :=
  [(keyId, Val.str strQ), (keyFrom, Val.obj 0), (keyCurrency, Val.str strUSD),
   (keyTotalAmount, Val.int 145), (keyInvoicePayload, Val.str strPay)]

/-- A concrete wire map holding the five required keys plus an extra "bot" key. -/
def dBotClash : PyDict :=
  [(keyId, Val.str strQ), (keyFrom, Val.obj 0), (keyCurrency, Val.str strUSD),
   (keyTotalAmount, Val.int 145), (keyInvoicePayload, Val.str strPay),
   (keyBot, Val.none)]

/-- A concrete wire map holding the five required keys plus an extra "self" key. -/
def dSelfClash : PyDict :=
  [(keyId, Val.str strQ), (keyFrom, Val.obj 0), (keyCurrency, Val.str strUSD),
   (keyTotalAmount, Val.int 145), (keyInvoicePayload, Val.str strPay),
   (keySelf, Val.none)]

/-- A concrete wire map with the five required keys and an optional one. -/
def dWithShip : PyDict :=
  [(keyId, Val.str strQ), (keyFrom, Val.obj 0), (keyCurrency, Val.str strUSD),
   (keyTotalAmount, Val.int 145), (keyInvoicePayload, Val.str strPay),
   (keyShippingOptionId, Val.str strShip)]

/-- A concrete wire map holding `id`, `currency`, `total_amount` and
`invoice_payload` but no "from" key. -/
def dNoFrom : PyDict :=
  [(keyId, Val.str strQ), (keyCurrency, Val.str strUSD),
   (keyTotalAmount, Val.int 145), (keyInvoicePayload, Val.str strPay)]

/-- Constructor keyword arguments producing `rEqA`. -/
def kEqA : PyDict :=
  [(keyId, Val.str strQ), (keyFromUser, Val.none), (keyCurrency, Val.str strUSD),
   (keyTotalAmount, Val.int 145), (keyInvoicePayload, Val.str strPay)]

/-- Constructor keyword arguments producing `rEqB`: same id as `kEqA`,
every other field different. -/
def kEqB : PyDict :=
  [(keyId, Val.str strQ), (keyFromUser, Val.user (Val.obj 2)),
   (keyCurrency, Val.str strEUR), (keyTotalAmount, Val.int 7),
   (keyInvoicePayload, Val.none)]

/-- The record `PreCheckoutQuery.init Option.none kEqA` constructs. -/
def rEqA : PreCheckoutQuery :=
  ⟨Val.str strQ, Val.none, Val.str strUSD, Val.int 145, Val.str strPay,
   Val.none, Val.none, Option.none, [Val.str strQ]⟩

/-- The record `PreCheckoutQuery.init Option.none kEqB` constructs. -/
def rEqB : PreCheckoutQuery :=
  ⟨Val.str strQ, Val.user (Val.obj 2), Val.str strEUR, Val.int 7, Val.none,
   Val.none, Val.none, Option.none, [Val.str strQ]⟩

/-- Constructor keyword arguments with an empty id and a negative total amount. -/
def kInv : PyDict :=
  [(keyId, Val.str strEmpty), (keyFromUser, Val.none), (keyCurrency, Val.str strUSD),
   (keyTotalAmount, Val.int (-1)), (keyInvoicePayload, Val.str strPay)]

/-- The record `PreCheckoutQuery.init Option.none kInv` constructs. -/
def rInv : PreCheckoutQuery :=
  ⟨Val.str strEmpty, Val.none, Val.str strUSD, Val.int (-1), Val.str strPay,
   Val.none, Val.none, Option.none, [Val.str strEmpty]⟩

/-- Constructor keyword arguments with a well-formed id and total amount. -/
def kInvGood : PyDict :=
  [(keyId, Val.str strQ), (keyFromUser, Val.user (Val.obj 3)),
   (keyCurrency, Val.str strUSD), (keyTotalAmount, Val.int 145),
   (keyInvoicePayload, Val.str strPay)]

/-- The record `PreCheckoutQuery.init Option.none kInvGood` constructs. -/
def rInvGood : PreCheckoutQuery :=
  ⟨Val.str strQ, Val.user (Val.obj 3), Val.str strUSD, Val.int 145, Val.str strPay,
   Val.none, Val.none, Option.none, [Val.str strQ]⟩

/-- Constructor keyword arguments supplying all five required names with null values. -/
def kNulls : PyDict :=
  [(keyId, Val.none), (keyFromUser, Val.none), (keyCurrency, Val.none),
   (keyTotalAmount, Val.none), (keyInvoicePayload, Val.none)]

/-- The record `PreCheckoutQuery.init Option.none kNulls` constructs. -/
def rNulls : PreCheckoutQuery :=
  ⟨Val.none, Val.none, Val.none, Val.none, Val.none,
   Val.none, Val.none, Option.none, [Val.none]⟩


theorem except_map_ok {α β : Type} (f : α → β) (x : α) :
    (Except.ok x : Except PyErr α).map f = Except.ok (f x) :=
  rfl

theorem PyDict.get_set_self (d : PyDict) (key : String) (v : Val) :
    PyDict.get (PyDict.set d key v) key = some v := by
  induction d with
  | nil => simp [PyDict.set, PyDict.get]
  | cons p rest ih =>
      obtain ⟨pk, pv⟩ := p
      by_cases h : pk = key
      · simp [PyDict.set, PyDict.get, h]
      · simp [PyDict.set, PyDict.get, h, ih]

theorem PyDict.get_set_ne (d : PyDict) (key k : String) (v : Val) (h : k ≠ key) :
    PyDict.get (PyDict.set d key v) k = PyDict.get d k := by
  induction d with
  | nil => simp [PyDict.set, PyDict.get, Ne.symm h]
  | cons p rest ih =>
      obtain ⟨pk, pv⟩ := p
      by_cases hpk : pk = key
      · subst hpk
        simp [PyDict.set, PyDict.get, Ne.symm h]
      · simp [PyDict.set, PyDict.get, hpk, ih]

theorem PyDict.pop_eq_none (d : PyDict) (key : String)
    (h : PyDict.get d key = Option.none) : PyDict.pop d key = Option.none := by
  induction d with
  | nil => simp [PyDict.pop]
  | cons p rest ih =>
      obtain ⟨pk, pv⟩ := p
      by_cases hpk : pk = key
      · simp [PyDict.get, hpk] at h
      · simp [PyDict.get, hpk] at h
        simp [PyDict.pop, hpk, ih h]

theorem PyDict.pop_of_get (d : PyDict) (key : String) (v : Val)
    (h : PyDict.get d key = some v) :
    ∃ d2, PyDict.pop d key = some (v, d2) ∧
      ∀ k, k ≠ key → PyDict.get d2 k = PyDict.get d k := by
  induction d with
  | nil => simp [PyDict.get] at h
  | cons p rest ih =>
      obtain ⟨pk, pv⟩ := p
      by_cases hpk : pk = key
      · subst hpk
        simp [PyDict.get] at h
        subst h
        refine ⟨rest, by simp [PyDict.pop], ?_⟩
        intro k hk
        simp [PyDict.get, Ne.symm hk]
      · simp [PyDict.get, hpk] at h
        obtain ⟨d2, hpop, hpres⟩ := ih h
        refine ⟨(pk, pv) :: d2, by simp [PyDict.pop, hpk, hpop], ?_⟩
        intro k hk
        simp [PyDict.get, hpres k hk]

theorem PyDict.isEmpty_false_of_get (d : PyDict) (k : String) (v : Val)
    (h : PyDict.get d k = some v) : d.isEmpty = false := by
  cases d with
  | nil => simp [PyDict.get] at h
  | cons p rest => rfl

theorem prepKwargs_get_ne (b : Option BotHandle) (vf : Val) (d : PyDict)
    (k : String) (h1 : k ≠ keyFromUser) (h2 : k ≠ keyOrderInfo) :
    PyDict.get (prepKwargs b vf d) k = PyDict.get d k := by
  unfold prepKwargs
  rw [PyDict.get_set_ne _ _ _ _ h2, PyDict.get_set_ne _ _ _ _ h1]

theorem prepKwargs_get_from_user (b : Option BotHandle) (vf : Val) (d : PyDict) :
    PyDict.get (prepKwargs b vf d) keyFromUser = some (User.de_json vf b) := by
  unfold prepKwargs
  rw [PyDict.get_set_ne _ _ _ _ (by decide : keyFromUser ≠ keyOrderInfo),
      PyDict.get_set_self]

theorem prepKwargs_get_order_info (b : Option BotHandle) (vf : Val) (d : PyDict) :
    PyDict.get (prepKwargs b vf d) keyOrderInfo
      = some (OrderInfo.de_json (PyDict.getD d keyOrderInfo) b) := by
  unfold prepKwargs
  rw [PyDict.get_set_self]
  simp only [PyDict.getD]
  rw [PyDict.get_set_ne _ _ _ _ (by decide : keyOrderInfo ≠ keyFromUser)]

theorem exceptIsOkSome_map {α : Type} (x : Except PyErr α) :
    exceptIsOkSome (x.map some) = exceptIsOk x := by
  cases x <;> rfl

theorem exceptIsError_map {α : Type} (x : Except PyErr α) :
    exceptIsError (x.map some) = exceptIsError x := by
  cases x <;> rfl

theorem exceptIsError_not_ok {α : Type} (x : Except PyErr α) :
    exceptIsError x = !exceptIsOk x := by
  cases x <;> rfl

theorem exceptIsOk_iff {α : Type} (x : Except PyErr α) :
    exceptIsOk x = true ↔ ∃ r, x = Except.ok r := by
  cases x <;> simp [exceptIsOk]

theorem de_json_eq_init (d : PyDict) (b : Option BotHandle) (vf : Val) (d2 : PyDict)
    (hne : d.isEmpty = false) (hpop : PyDict.pop d keyFrom = some (vf, d2)) :
    PreCheckoutQuery.de_json (some d) b
      = (PreCheckoutQuery.init b (prepKwargs b vf d2)).map some := by
  simp [PreCheckoutQuery.de_json, PreCheckoutQuery.parse_data, hne, hpop]

theorem de_json_eq_keyerror (d : PyDict) (b : Option BotHandle)
    (hne : d.isEmpty = false) (hpop : PyDict.pop d keyFrom = Option.none) :
    PreCheckoutQuery.de_json (some d) b = Except.error (PyErr.keyError keyFrom) := by
  simp [PreCheckoutQuery.de_json, PreCheckoutQuery.parse_data, hne, hpop]

theorem PreCheckoutQuery.init_ok (b : Option BotHandle) (k : PyDict)
    (i fu c ta ip : Val)
    (hs : PyDict.get k keySelf = Option.none)
    (hb : PyDict.get k keyBot = Option.none)
    (h1 : PyDict.get k keyId = some i)
    (h2 : PyDict.get k keyFromUser = some fu)
    (h3 : PyDict.get k keyCurrency = some c)
    (h4 : PyDict.get k keyTotalAmount = some ta)
    (h5 : PyDict.get k keyInvoicePayload = some ip) :
    PreCheckoutQuery.init b k = Except.ok
      ⟨i, fu, c, ta, ip, PyDict.getD k keyShippingOptionId,
       PyDict.getD k keyOrderInfo, b, [i]⟩ := by
  simp [PreCheckoutQuery.init, hs, hb, h1, h2, h3, h4, h5]

theorem PreCheckoutQuery.init_ok_fields (b : Option BotHandle) (k : PyDict)
    (r : PreCheckoutQuery) (h : PreCheckoutQuery.init b k = Except.ok r) :
    PyDict.get k keyId = some r.id ∧
    PyDict.get k keyFromUser = some r.from_user ∧
    PyDict.get k keyCurrency = some r.currency ∧
    PyDict.get k keyTotalAmount = some r.total_amount ∧
    PyDict.get k keyInvoicePayload = some r.invoice_payload ∧
    r.idAttrs = [r.id] ∧ r.bot = b := by
  rcases hs : PyDict.get k keySelf with _ | vs <;>
  rcases hb : PyDict.get k keyBot with _ | vb <;>
  rcases h1 : PyDict.get k keyId with _ | v1 <;>
  rcases h2 : PyDict.get k keyFromUser with _ | v2 <;>
  rcases h3 : PyDict.get k keyCurrency with _ | v3 <;>
  rcases h4 : PyDict.get k keyTotalAmount with _ | v4 <;>
  rcases h5 : PyDict.get k keyInvoicePayload with _ | v5 <;>
  (simp_all [PreCheckoutQuery.init]; try simp [← h])

theorem PreCheckoutQuery.init_not_ok (b : Option BotHandle) (k : PyDict)
    (hm : PyDict.get k keyId = Option.none ∨ PyDict.get k keyFromUser = Option.none ∨
          PyDict.get k keyCurrency = Option.none ∨
          PyDict.get k keyTotalAmount = Option.none ∨
          PyDict.get k keyInvoicePayload = Option.none) :
    exceptIsOk (PreCheckoutQuery.init b k) = false := by
  cases hB : exceptIsOk (PreCheckoutQuery.init b k) with
  | false => rfl
  | true =>
      obtain ⟨r, hr⟩ := (exceptIsOk_iff _).mp hB
      have hf := PreCheckoutQuery.init_ok_fields b k r hr
      rcases hm with h | h | h | h | h <;> simp_all

/-- Claim C2: for every record with an attached client handle and every argument
list, `answer` makes exactly one call to the handle's `answer_pre_checkout_query`
operation, passing the record's `id` as the query identifier together with all
forwarded arguments unmodified, and returns the boolean result of that call
unchanged. -/
theorem answer_delegates_once (q : PreCheckoutQuery) (b : BotHandle)
    (args : List Val) (kwargs : PyDict) (h : q.bot = some b) :
    PreCheckoutQuery.answer q args kwargs =
      ([⟨q.id, args, kwargs⟩],
       Except.ok (b.answer_pre_checkout_query ⟨q.id, args, kwargs⟩)) := by
  simp [PreCheckoutQuery.answer, h]

/-- Witness for claim C2 at a concrete record and a stub handle: exactly one
call, carrying the record's id and the forwarded argument, result returned
unchanged. -/
theorem answer_delegates_once_witness :
    PreCheckoutQuery.answer qAns [Val.bool true] [] =
      ([⟨Val.str strQ, [Val.bool true], []⟩], Except.ok true) :=
  answer_delegates_once qAns bot0 [Val.bool true] [] rfl

/-- Claim C5: `de_json` applied to an absent (`None`) or empty input map
returns nothing, and no exception is raised. -/
theorem de_json_none_or_empty (b : Option BotHandle) :
    PreCheckoutQuery.de_json Option.none b = Except.ok Option.none ∧
    PreCheckoutQuery.de_json (some []) b = Except.ok Option.none :=
  ⟨rfl, rfl⟩

/-- Claim C6: calling `answer` on a record whose client handle is unset raises
the null-dependency error (the AttributeError from the `None` attribute access)
before any call to the acknowledgement operation is attempted: the call trace is
empty and the outcome is the error, never silently swallowed. -/
theorem answer_without_handle_errors (q : PreCheckoutQuery) (args : List Val)
    (kwargs : PyDict) (h : q.bot = Option.none) :
    PreCheckoutQuery.answer q args kwargs =
      ([], Except.error PyErr.attributeError) := by
  simp [PreCheckoutQuery.answer, h]

/-- Witness for claim C6 at a concrete record without a handle. -/
theorem answer_without_handle_errors_witness :
    PreCheckoutQuery.answer qNoBot [] [] =
      ([], Except.error PyErr.attributeError) :=
  answer_without_handle_errors qNoBot [] [] rfl

/-- Claim C9: `de_json` operates on a shallow mutation-safe copy of its input
map, so the caller's map is unchanged at its top level after the call, and the
factory is idempotent and side-effect-free aside from allocation: running it
again on the map the first call left behind produces the identical outcome. -/
theorem de_json_frame_idempotent (data : Option PyDict) (b : Option BotHandle) :
    (PreCheckoutQuery.de_json_call data b).2 = data ∧
    PreCheckoutQuery.de_json_call ((PreCheckoutQuery.de_json_call data b).2) b
      = PreCheckoutQuery.de_json_call data b :=
  ⟨rfl, rfl⟩

/-- Claim C10: the result and the delegate call made by `answer` depend only on
the record's `id` field and its client handle: two records agreeing on those
yield identical calls and results for equal arguments, whatever their other
fields hold. -/
theorem answer_depends_only_on_id_and_handle (q1 q2 : PreCheckoutQuery)
    (args : List Val) (kwargs : PyDict)
    (hid : q1.id = q2.id) (hbot : q1.bot = q2.bot) :
    PreCheckoutQuery.answer q1 args kwargs
      = PreCheckoutQuery.answer q2 args kwargs := by
  unfold PreCheckoutQuery.answer
  rw [hid, hbot]

/-- Witness for claim C10 at two concrete records that differ in user, currency,
amount and payload but share id and handle. -/
theorem answer_depends_only_on_id_and_handle_witness :
    PreCheckoutQuery.answer qInfoA [] [] = PreCheckoutQuery.answer qInfoB [] [] :=
  answer_depends_only_on_id_and_handle qInfoA qInfoB [] [] rfl rfl

/-- Claim C4: two constructed PreCheckoutQuery records compare equal if and only
if their id fields are equal, regardless of whether any other field (user,
currency, amount, payload, shipping option, order info, client handle) differs;
the hypotheses range over arbitrary constructor calls, which is the only way the
program creates records. -/
theorem eq_iff_same_id (b1 b2 : Option BotHandle) (k1 k2 : PyDict)
    (r1 r2 : PreCheckoutQuery)
    (h1 : PreCheckoutQuery.init b1 k1 = Except.ok r1)
    (h2 : PreCheckoutQuery.init b2 k2 = Except.ok r2) :
    PreCheckoutQuery.eq r1 r2 = true ↔ r1.id = r2.id := by
  have e1 := (PreCheckoutQuery.init_ok_fields b1 k1 r1 h1).2.2.2.2.2.1
  have e2 := (PreCheckoutQuery.init_ok_fields b2 k2 r2 h2).2.2.2.2.2.1
  simp [PreCheckoutQuery.eq, e1, e2]

/-- Witness for claim C4: two concrete constructed records that differ in user,
currency, amount and payload but share the id compare equal. -/
theorem eq_iff_same_id_witness :
    PreCheckoutQuery.eq rEqA rEqB = true :=
  (eq_iff_same_id Option.none Option.none kEqA kEqB rEqA rEqB rfl rfl).mpr rfl

/-- Counterexample to claim C7 as stated: the constructor performs no
validation, so a record with an empty id string and a negative total amount is
constructed without complaint, violating both claimed invariants. -/
theorem init_accepts_invalid_id_and_amount :
    PreCheckoutQuery.init Option.none kInv = Except.ok rInv ∧
    isNonEmptyStr rInv.id = false ∧ isNonNegInt rInv.total_amount = false :=
  ⟨rfl, rfl, rfl⟩

/-- Claim C7 amended: the constructor stores `id` and `total_amount` unchanged
and the record is immutable afterwards, so every record constructed from an id
that is a non-empty string and a total amount that is a non-negative integer
satisfies the invariants; the constructor itself does not enforce them. -/
theorem init_preserves_invariants (b : Option BotHandle) (k : PyDict)
    (r : PreCheckoutQuery) (h : PreCheckoutQuery.init b k = Except.ok r)
    (hid : isNonEmptyStr (PyDict.getD k keyId) = true)
    (hta : isNonNegInt (PyDict.getD k keyTotalAmount) = true) :
    isNonEmptyStr r.id = true ∧ isNonNegInt r.total_amount = true := by
  obtain ⟨e1, _, _, e4, _⟩ := PreCheckoutQuery.init_ok_fields b k r h
  constructor
  · simpa [PyDict.getD, e1] using hid
  · simpa [PyDict.getD, e4] using hta

/-- Witness for the amended claim C7 at a concrete well-formed construction. -/
theorem init_preserves_invariants_witness :
    isNonEmptyStr rInvGood.id = true ∧ isNonNegInt rInvGood.total_amount = true :=
  init_preserves_invariants Option.none kInvGood rInvGood rfl rfl rfl

/-- Counterexample to claim C8 as stated: the constructor does not check the
five required fields for non-null values; supplying all five as `None` succeeds
and the nulls are stored. -/
theorem init_accepts_null_required_fields :
    PreCheckoutQuery.init Option.none kNulls = Except.ok rNulls ∧
    rNulls.id = Val.none ∧ rNulls.from_user = Val.none ∧
    rNulls.currency = Val.none ∧ rNulls.total_amount = Val.none ∧
    rNulls.invoice_payload = Val.none :=
  ⟨rfl, rfl, rfl, rfl, rfl, rfl⟩

/-- Claim C8 amended: the constructor requires the five fields `id`,
`from_user`, `currency`, `total_amount`, `invoice_payload` to be supplied —
any keyword call supplying all five (without duplicating the `self` or `bot`
arguments the call `cls(bot=bot, **data)` already binds) succeeds, and any call
missing one fails with a TypeError — but the values are not checked for
nullness; extra unrecognized keyword fields are accepted and silently ignored:
they are not stored and do not affect the construction at all. -/
theorem init_required_and_extras_ignored :
    (∀ (b : Option BotHandle) (k : PyDict),
        PyDict.get k keySelf = Option.none →
        PyDict.get k keyBot = Option.none →
        (PyDict.get k keyId).isSome = true →
        (PyDict.get k keyFromUser).isSome = true →
        (PyDict.get k keyCurrency).isSome = true →
        (PyDict.get k keyTotalAmount).isSome = true →
        (PyDict.get k keyInvoicePayload).isSome = true →
        exceptIsOk (PreCheckoutQuery.init b k) = true) ∧
    (∀ (b : Option BotHandle) (k : PyDict),
        (PyDict.get k keyId = Option.none ∨
         PyDict.get k keyFromUser = Option.none ∨
         PyDict.get k keyCurrency = Option.none ∨
         PyDict.get k keyTotalAmount = Option.none ∨
         PyDict.get k keyInvoicePayload = Option.none) →
        exceptIsOk (PreCheckoutQuery.init b k) = false) ∧
    (∀ (b : Option BotHandle) (k : PyDict) (key : String) (v : Val),
        key ∉ recognizedKeys →
        PreCheckoutQuery.init b ((key, v) :: k) = PreCheckoutQuery.init b k) := by
  refine ⟨?_, ?_, ?_⟩
  · intro b k hsf hb h1 h2 h3 h4 h5
    obtain ⟨i, e1⟩ := Option.isSome_iff_exists.mp h1
    obtain ⟨fu, e2⟩ := Option.isSome_iff_exists.mp h2
    obtain ⟨c, e3⟩ := Option.isSome_iff_exists.mp h3
    obtain ⟨ta, e4⟩ := Option.isSome_iff_exists.mp h4
    obtain ⟨ip, e5⟩ := Option.isSome_iff_exists.mp h5
    rw [PreCheckoutQuery.init_ok b k i fu c ta ip hsf hb e1 e2 e3 e4 e5]
    rfl
  · intro b k hm
    exact PreCheckoutQuery.init_not_ok b k hm
  · intro b k key v hnot
    have hg : ∀ x, x ∈ recognizedKeys →
        PyDict.get ((key, v) :: k) x = PyDict.get k x := by
      intro x hx
      have hne : key ≠ x := fun e => hnot (by rw [e]; exact hx)
      simp [PyDict.get, hne]
    simp only [PreCheckoutQuery.init, PyDict.getD,
      hg keySelf (by decide), hg keyBot (by decide), hg keyId (by decide),
      hg keyFromUser (by decide),
      hg keyCurrency (by decide), hg keyTotalAmount (by decide),
      hg keyInvoicePayload (by decide), hg keyShippingOptionId (by decide),
      hg keyOrderInfo (by decide)]

/-- Witness for the amended claim C8: a concrete all-null call succeeds, and
prepending a concrete junk keyword leaves the construction unchanged. -/
theorem init_required_and_extras_ignored_witness :
    exceptIsOk (PreCheckoutQuery.init Option.none kNulls) = true ∧
    PreCheckoutQuery.init Option.none ((strJunk, Val.int 7) :: kNulls)
      = PreCheckoutQuery.init Option.none kNulls :=
  ⟨init_required_and_extras_ignored.1 Option.none kNulls rfl rfl rfl rfl rfl rfl rfl,
   init_required_and_extras_ignored.2.2 Option.none kNulls strJunk (Val.int 7)
     (by decide)⟩

/-- Claim C1 amended: for every wire map containing the keys `id`, `from`,
`currency`, `total_amount` and `invoice_payload` — and not containing the
reserved constructor keywords `bot` and `self`, which the call
`cls(bot=bot, **data)` already binds — `de_json` produces a record whose `id`,
`currency`, `total_amount` and `invoice_payload` fields equal the corresponding
input values, whose `from_user` field equals the `User` factory applied to the
"from" sub-object, and whose `order_info` field is nothing when the
"order_info" key is absent and equals the `OrderInfo` factory's output when it
is present. -/
theorem de_json_fields_correct (d : PyDict) (b : Option BotHandle)
    (vid vf vc vt vp : Val)
    (hid : PyDict.get d keyId = some vid)
    (hfrom : PyDict.get d keyFrom = some vf)
    (hcur : PyDict.get d keyCurrency = some vc)
    (hta : PyDict.get d keyTotalAmount = some vt)
    (hip : PyDict.get d keyInvoicePayload = some vp)
    (hbot : PyDict.get d keyBot = Option.none)
    (hself : PyDict.get d keySelf = Option.none) :
    ∃ r, PreCheckoutQuery.de_json (some d) b = Except.ok (some r) ∧
      r.id = vid ∧ r.currency = vc ∧ r.total_amount = vt ∧
      r.invoice_payload = vp ∧ r.from_user = User.de_json vf b ∧
      r.order_info = OrderInfo.de_json (PyDict.getD d keyOrderInfo) b ∧
      (PyDict.get d keyOrderInfo = Option.none → r.order_info = Val.none) := by
  have hne : d.isEmpty = false := PyDict.isEmpty_false_of_get d keyId vid hid
  obtain ⟨d2, hpop, hpres⟩ := PyDict.pop_of_get d keyFrom vf hfrom
  have tId : PyDict.get (prepKwargs b vf d2) keyId = some vid :=
    (prepKwargs_get_ne b vf d2 keyId (by decide) (by decide)).trans
      ((hpres keyId (by decide)).trans hid)
  have tCur : PyDict.get (prepKwargs b vf d2) keyCurrency = some vc :=
    (prepKwargs_get_ne b vf d2 keyCurrency (by decide) (by decide)).trans
      ((hpres keyCurrency (by decide)).trans hcur)
  have tTa : PyDict.get (prepKwargs b vf d2) keyTotalAmount = some vt :=
    (prepKwargs_get_ne b vf d2 keyTotalAmount (by decide) (by decide)).trans
      ((hpres keyTotalAmount (by decide)).trans hta)
  have tIp : PyDict.get (prepKwargs b vf d2) keyInvoicePayload = some vp :=
    (prepKwargs_get_ne b vf d2 keyInvoicePayload (by decide) (by decide)).trans
      ((hpres keyInvoicePayload (by decide)).trans hip)
  have tBot : PyDict.get (prepKwargs b vf d2) keyBot = Option.none :=
    (prepKwargs_get_ne b vf d2 keyBot (by decide) (by decide)).trans
      ((hpres keyBot (by decide)).trans hbot)
  have tSelf : PyDict.get (prepKwargs b vf d2) keySelf = Option.none :=
    (prepKwargs_get_ne b vf d2 keySelf (by decide) (by decide)).trans
      ((hpres keySelf (by decide)).trans hself)
  have tFu := prepKwargs_get_from_user b vf d2
  have tOi := prepKwargs_get_order_info b vf d2
  have hOiG : PyDict.get d2 keyOrderInfo = PyDict.get d keyOrderInfo :=
    hpres keyOrderInfo (by decide)
  have hOiVal : PyDict.getD (prepKwargs b vf d2) keyOrderInfo
      = OrderInfo.de_json (PyDict.getD d keyOrderInfo) b := by
    simp [PyDict.getD, tOi, hOiG]
  rw [de_json_eq_init d b vf d2 hne hpop,
      PreCheckoutQuery.init_ok b _ vid (User.de_json vf b) vc vt vp
        tSelf tBot tId tFu tCur tTa tIp,
      except_map_ok]
  refine ⟨_, rfl, rfl, rfl, rfl, rfl, rfl, hOiVal, ?_⟩
  intro habs
  have hD : PyDict.getD d keyOrderInfo = Val.none := by
    simp [PyDict.getD, habs]
  show PyDict.getD (prepKwargs b vf d2) keyOrderInfo = Val.none
  rw [hOiVal, hD]
  rfl

/-- Witness for the amended claim C1 at a concrete wire map holding exactly the
five required keys. -/
theorem de_json_fields_correct_witness :
    ∃ r, PreCheckoutQuery.de_json (some dWire) Option.none
        = Except.ok (some r) ∧
      r.id = Val.str strQ ∧ r.currency = Val.str strUSD ∧
      r.total_amount = Val.int 145 ∧ r.invoice_payload = Val.str strPay ∧
      r.from_user = User.de_json (Val.obj 0) Option.none ∧
      r.order_info = OrderInfo.de_json (PyDict.getD dWire keyOrderInfo) Option.none ∧
      (PyDict.get dWire keyOrderInfo = Option.none → r.order_info = Val.none) :=
  de_json_fields_correct dWire Option.none (Val.str strQ) (Val.obj 0)
    (Val.str strUSD) (Val.int 145) (Val.str strPay) rfl rfl rfl rfl rfl rfl rfl

/-- Counterexample to claim C1 as stated: a wire map containing the five
required keys plus an extra "bot" key (likewise an extra "self" key) satisfies
the claim's premise, yet the construction `cls(bot=bot, **data)` receives that
argument twice and raises a TypeError, so no record is produced. -/
theorem de_json_bot_key_clash :
    hasRequiredKeys dBotClash = true ∧
    PreCheckoutQuery.de_json (some dBotClash) Option.none
      = Except.error (PyErr.typeError keyBot) ∧
    hasRequiredKeys dSelfClash = true ∧
    PreCheckoutQuery.de_json (some dSelfClash) Option.none
      = Except.error (PyErr.typeError keySelf) :=
  ⟨rfl, rfl, rfl, rfl⟩

/-- Claim C3 amended: `de_json` never raises on a missing optional field
(`shipping_option_id`, `order_info`); on a non-empty map that does not contain
the reserved constructor keywords `bot` and `self` (which the call
`cls(bot=bot, **data)` already binds), it produces a record if and only if the
five required fields `id`, `from`, `currency`, `total_amount` and
`invoice_payload` are all present, and it fails with a decoding error exactly
when one of them is absent. -/
theorem de_json_failure_characterization (d : PyDict) (b : Option BotHandle)
    (hne : d.isEmpty = false) (hbot : PyDict.get d keyBot = Option.none)
    (hself : PyDict.get d keySelf = Option.none) :
    exceptIsOkSome (PreCheckoutQuery.de_json (some d) b) = hasRequiredKeys d ∧
    exceptIsError (PreCheckoutQuery.de_json (some d) b) = !hasRequiredKeys d := by
  rcases hfrom : PyDict.get d keyFrom with _ | vf
  · rw [de_json_eq_keyerror d b hne (PyDict.pop_eq_none d keyFrom hfrom)]
    constructor
    · simp [exceptIsOkSome, hasRequiredKeys, hfrom]
    · simp [exceptIsError, hasRequiredKeys, hfrom]
  · obtain ⟨d2, hpop, hpres⟩ := PyDict.pop_of_get d keyFrom vf hfrom
    rw [de_json_eq_init d b vf d2 hne hpop, exceptIsOkSome_map, exceptIsError_map,
        exceptIsError_not_ok]
    suffices h : exceptIsOk (PreCheckoutQuery.init b (prepKwargs b vf d2))
        = hasRequiredKeys d by
      exact ⟨h, by rw [h]⟩
    have tId : PyDict.get (prepKwargs b vf d2) keyId = PyDict.get d keyId :=
      (prepKwargs_get_ne b vf d2 keyId (by decide) (by decide)).trans
        (hpres keyId (by decide))
    have tCur : PyDict.get (prepKwargs b vf d2) keyCurrency
        = PyDict.get d keyCurrency :=
      (prepKwargs_get_ne b vf d2 keyCurrency (by decide) (by decide)).trans
        (hpres keyCurrency (by decide))
    have tTa : PyDict.get (prepKwargs b vf d2) keyTotalAmount
        = PyDict.get d keyTotalAmount :=
      (prepKwargs_get_ne b vf d2 keyTotalAmount (by decide) (by decide)).trans
        (hpres keyTotalAmount (by decide))
    have tIp : PyDict.get (prepKwargs b vf d2) keyInvoicePayload
        = PyDict.get d keyInvoicePayload :=
      (prepKwargs_get_ne b vf d2 keyInvoicePayload (by decide) (by decide)).trans
        (hpres keyInvoicePayload (by decide))
    have tBot : PyDict.get (prepKwargs b vf d2) keyBot = Option.none :=
      ((prepKwargs_get_ne b vf d2 keyBot (by decide) (by decide)).trans
        (hpres keyBot (by decide))).trans hbot
    have tSelf : PyDict.get (prepKwargs b vf d2) keySelf = Option.none :=
      ((prepKwargs_get_ne b vf d2 keySelf (by decide) (by decide)).trans
        (hpres keySelf (by decide))).trans hself
    have tFu := prepKwargs_get_from_user b vf d2
    rcases h1 : PyDict.get d keyId with _ | v1
    · rw [PreCheckoutQuery.init_not_ok b (prepKwargs b vf d2)
        (Or.inl (tId.trans h1))]
      simp [hasRequiredKeys, h1]
    · rcases h3 : PyDict.get d keyCurrency with _ | v3
      · rw [PreCheckoutQuery.init_not_ok b (prepKwargs b vf d2)
          (Or.inr (Or.inr (Or.inl (tCur.trans h3))))]
        simp [hasRequiredKeys, h3]
      · rcases h4 : PyDict.get d keyTotalAmount with _ | v4
        · rw [PreCheckoutQuery.init_not_ok b (prepKwargs b vf d2)
            (Or.inr (Or.inr (Or.inr (Or.inl (tTa.trans h4)))))]
          simp [hasRequiredKeys, h4]
        · rcases h5 : PyDict.get d keyInvoicePayload with _ | v5
          · rw [PreCheckoutQuery.init_not_ok b (prepKwargs b vf d2)
              (Or.inr (Or.inr (Or.inr (Or.inr (tIp.trans h5)))))]
            simp [hasRequiredKeys, h5]
          · rw [PreCheckoutQuery.init_ok b (prepKwargs b vf d2) v1
              (User.de_json vf b) v3 v4 v5 tSelf tBot (tId.trans h1) tFu
              (tCur.trans h3) (tTa.trans h4) (tIp.trans h5)]
            simp [exceptIsOk, hasRequiredKeys, h1, hfrom, h3, h4, h5]

/-- Witness for the amended claim C3 at a concrete map holding the five required
keys and the optional shipping option: the factory succeeds (missing optional
`order_info` raises nothing) and no error is signalled. -/
theorem de_json_failure_characterization_witness :
    exceptIsOkSome (PreCheckoutQuery.de_json (some dWithShip) Option.none)
      = hasRequiredKeys dWithShip ∧
    exceptIsError (PreCheckoutQuery.de_json (some dWithShip) Option.none)
      = !hasRequiredKeys dWithShip :=
  de_json_failure_characterization dWithShip Option.none rfl rfl rfl

/-- Counterexample to claim C3 as stated: a map holding all four of the fields
the claim lists as required (`id`, `currency`, `total_amount`,
`invoice_payload`) but no "from" key makes `de_json` fail anyway, with the
KeyError from `data.pop('from')`. -/
theorem de_json_missing_from_fails :
    (PyDict.get dNoFrom keyId).isSome = true ∧
    (PyDict.get dNoFrom keyCurrency).isSome = true ∧
    (PyDict.get dNoFrom keyTotalAmount).isSome = true ∧
    (PyDict.get dNoFrom keyInvoicePayload).isSome = true ∧
    PreCheckoutQuery.de_json (some dNoFrom) Option.none
      = Except.error (PyErr.keyError keyFrom) :=
  ⟨rfl, rfl, rfl, rfl, rfl⟩
